import Mathlib

/-!
Verification of the Provider Routing & Normalization Layer
(`supabase/edge-functions/chat-completion.ts`).

The edge function is a stateless router: it validates a JSON request,
resolves an API credential, transforms the message list into the chosen
provider's wire shape, performs one HTTP POST, and normalizes the
response into a canonical result, wrapping every failure into a uniform
error envelope at HTTP 500.

The embedding models JavaScript values flowing through the handler:
`Json` is a parsed JSON value, `JsVal := Option Json` adds `undefined`
(`none`).  Property access in the source can throw a `TypeError`
(accessing a member of `undefined`/`null`), which we model with
`Except String`.  The upstream HTTP layer is an oracle
`UpstreamCall → Except String (Bool × Json)` (transport error, or
(response.ok, parsed body)); the router records every upstream call and
every environment-variable read in a trace.
-/

/-- A parsed JSON value (numbers restricted to integers, which covers
every value appearing in the routed payloads). -/
inductive Json where
  | null
  | bool (b : Bool)
  | num (n : Int)
  | str (s : String)
  | arr (xs : List Json)
  | obj (fields : List (String × Json))
deriving Repr

/-- A JavaScript value position: `none` is `undefined`, `some j` a JSON value. -/
abbrev JsVal := Option Json

/-- First-match field lookup in an object literal (JSON.parse yields
objects with effectively unique keys). -/
def lookupField : List (String × Json) → String → Option Json
  | [], _ => none
  | (k, v) :: rest, key => if k = key then some v else lookupField rest key

/-- Property access on a (non-null, defined) JavaScript object value:
yields `undefined` on anything that is not an object with the key. -/
def jsProp : Json → String → JsVal
  | .obj fs, k => lookupField fs k
  | _, _ => none

/-- `x.k` where `x` may be `undefined` or `null`: throws a TypeError then. -/
def strictProp : JsVal → String → Except String JsVal
  | none, k => .error ("TypeError: Cannot read properties of undefined (reading " ++ k ++ ")")
  | some .null, k => .error ("TypeError: Cannot read properties of null (reading " ++ k ++ ")")
  | some j, k => .ok (jsProp j k)

/-- `x?.k`: short-circuits `undefined`/`null` to `undefined`, else plain access. -/
def optProp : JsVal → String → JsVal
  | none, _ => none
  | some .null, _ => none
  | some j, k => jsProp j k

/-- `x[i]` for a numeric index: throws on `undefined`/`null`, indexes
arrays (out of range gives `undefined`), characters of strings, and the
stringified key of objects. -/
def strictIndex : JsVal → Nat → Except String JsVal
  | none, _ => .error "TypeError: Cannot read properties of undefined (reading index)"
  | some .null, _ => .error "TypeError: Cannot read properties of null (reading index)"
  | some (.arr xs), i => .ok (xs.get? i)
  | some (.obj fs), i => .ok (lookupField fs (toString i))
  | some (.str s), i => .ok ((s.toList.get? i).map fun c => Json.str (String.singleton c))
  | some _, _ => .ok none

/-- JavaScript truthiness of a value. -/
def jsTruthy : JsVal → Bool
  | none => false
  | some .null => false
  | some (.bool b) => b
  | some (.num n) => n != 0
  | some (.str s) => s != ""
  | some (.arr _) => true
  | some (.obj _) => true

/-- `Array.isArray`. -/
def jsIsArray : JsVal → Bool
  | some (.arr _) => true
  | _ => false

/-- `.length` of a value known to be an array (only evaluated after the
`Array.isArray` guard in the source). -/
def jsArrLen : JsVal → Nat
  | some (.arr xs) => xs.length
  | _ => 0

/-- The element list of an array value (after the `Array.isArray` guard). -/
def jsArrElems : JsVal → List Json
  | some (.arr xs) => xs
  | _ => []

/-- String conversion as performed by a template literal. -/
def jsTemplate : Json → String
  | .null => "null"
  | .bool b => cond b "true" "false"
  | .num n => toString n
  | .str s => s
  | .arr xs => String.intercalate "," (xs.attach.map fun j => jsTemplate j.1)
  | .obj _ => "[object Object]"
decreasing_by
  have h := List.sizeOf_lt_of_mem j.2
  simp only [Json.arr.sizeOf_spec]
  omega

/-- Template-literal conversion of a possibly-undefined value. -/
def jsValTemplate : JsVal → String
  | none => "undefined"
  | some j => jsTemplate j

/-- Build the object JSON.stringify produces from an object literal:
fields whose value is `undefined` are dropped. -/
def mkObjDrop (fs : List (String × JsVal)) : Json :=
  .obj (fs.filterMap fun p => p.2.map fun v => (p.1, v))

/-! ## Message transformation (`formatMessagesForProvider`) -/

/-- The object built by the openai/mistral arrow function on one
(non-null) message: `({role: msg.role, content: msg.content})`. -/
def projShape (m : Json) : Json :=
  mkObjDrop [("role", jsProp m "role"), ("content", jsProp m "content")]

/-- One element of the openai/mistral mapping.  Accessing `.role` on a
`null` element throws. -/
def projMsg (msg : Json) : Except String Json :=
  match msg with
  | .null => .error "TypeError: Cannot read properties of null (reading role)"
  | m => .ok (projShape m)

/-- `msg.role === 'user'`: strict equality against the string literal. -/
def isUserRole (v : JsVal) : Bool :=
  match v with
  | some (.str s) => s == "user"
  | _ => false

/-- The object built by the claude arrow function on one (non-null)
message: `({role: msg.role === 'user' ? 'human' : 'assistant', content: msg.content})`. -/
def claudeShape (m : Json) : Json :=
  mkObjDrop
    [("role", some (if isUserRole (jsProp m "role") then .str "human" else .str "assistant")),
     ("content", jsProp m "content")]

/-- One element of the claude mapping. -/
def claudeMsg (msg : Json) : Except String Json :=
  match msg with
  | .null => .error "TypeError: Cannot read properties of null (reading role)"
  | m => .ok (claudeShape m)

/-- `Array.prototype.map` with a callback that can throw: sequential,
stops at the first exception. -/
def mapMsgs (f : Json → Except String Json) : List Json → Except String (List Json)
  | [] => .ok []
  | m :: rest => do
    let m' ← f m
    let rest' ← mapMsgs f rest
    .ok (m' :: rest')

/-- `formatMessagesForProvider(messages, provider)`: switch on the
provider string; unknown providers return the list unchanged. -/
def formatMessagesForProvider (messages : List Json) (provider : JsVal) :
    Except String (List Json) :=
  match provider with
  | some (.str "openai") => mapMsgs projMsg messages
  | some (.str "claude") => mapMsgs claudeMsg messages
  | some (.str "mistral") => mapMsgs projMsg messages
  | _ => .ok messages

/-! ## Response normalization -/

/-- openai: `{content: data.choices[0]?.message?.content || '', usage: data.usage, model: data.model}`.
`data.choices` and the `[0]` index are strict accesses (they throw on
`undefined`/`null`); only the `message`/`content` steps are optional-chained. -/
def extractOpenAI (data : Json) : Except String Json := do
  let choices ← strictProp (some data) "choices"
  let c0 ← strictIndex choices 0
  let contentV := optProp (optProp c0 "message") "content"
  let content : Json := if jsTruthy contentV then contentV.getD .null else .str ""
  .ok (mkObjDrop [("content", some content), ("usage", jsProp data "usage"),
                  ("model", jsProp data "model")])

/-- claude: `{content: data.content[0]?.text || '', usage: data.usage, model: data.model}`. -/
def extractClaude (data : Json) : Except String Json := do
  let carr ← strictProp (some data) "content"
  let c0 ← strictIndex carr 0
  let contentV := optProp c0 "text"
  let content : Json := if jsTruthy contentV then contentV.getD .null else .str ""
  .ok (mkObjDrop [("content", some content), ("usage", jsProp data "usage"),
                  ("model", jsProp data "model")])

/-- mistral: same extraction as openai (`callMistral` duplicates the shape). -/
def extractMistral (data : Json) : Except String Json := do
  let choices ← strictProp (some data) "choices"
  let c0 ← strictIndex choices 0
  let contentV := optProp (optProp c0 "message") "content"
  let content : Json := if jsTruthy contentV then contentV.getD .null else .str ""
  .ok (mkObjDrop [("content", some content), ("usage", jsProp data "usage"),
                  ("model", jsProp data "model")])

/-! ## Upstream dispatch -/

/-- One outbound HTTP request as built by the `fetch` calls. -/
structure UpstreamCall where
  url : String
  method : String
  headers : List (String × String)
  body : Json
deriving Repr

/-- The upstream HTTP layer: a transport-level failure (rejected fetch),
or `(response.ok, parsed response body)`. -/
abbrev Upstream := UpstreamCall → Except String (Bool × Json)

/-- Shared non-2xx handling: `errorData.error?.message || 'Unknown error'`
interpolated into the provider-labelled message.  `errorData.error` is a
strict access and throws if the error body is `null`. -/
def upstreamErrorMsg (label : String) (errorData : Json) : Except String String := do
  let errV ← strictProp (some errorData) "error"
  let msgV := optProp errV "message"
  .ok (label ++ " API error: " ++ (if jsTruthy msgV then jsValTemplate msgV else "Unknown error"))

/-- The fetch request `callOpenAI` issues. -/
def openaiRequest (messages : List Json) (model apiKey stream : JsVal) : UpstreamCall :=
  { url := "https://api.openai.com/v1/chat/completions"
    method := "POST"
    headers := [("Authorization", "Bearer " ++ jsValTemplate apiKey),
                ("Content-Type", "application/json")]
    body := mkObjDrop [("model", model), ("messages", some (.arr messages)),
                       ("stream", stream)] }

/-- `callOpenAI(messages, model, apiKey, stream)`: one fetch, then
non-2xx handling or normalization. -/
def callOpenAI (upstream : Upstream) (messages : List Json) (model apiKey stream : JsVal) :
    Except String Json × List UpstreamCall :=
  let call := openaiRequest messages model apiKey stream
  let res : Except String Json :=
    match upstream call with
    | .error m => .error m
    | .ok (ok, data) =>
      if ok then extractOpenAI data
      else
        match upstreamErrorMsg "OpenAI" data with
        | .error m => .error m
        | .ok m => .error m
  (res, [call])

/-- The fetch request `callClaude` issues: x-api-key header, anthropic
version header, and a fixed `max_tokens: 4000` in the body. -/
def claudeRequest (messages : List Json) (model apiKey stream : JsVal) : UpstreamCall :=
  { url := "https://api.anthropic.com/v1/messages"
    method := "POST"
    headers := [("x-api-key", jsValTemplate apiKey),
                ("Content-Type", "application/json"),
                ("anthropic-version", "2023-06-01")]
    body := mkObjDrop [("model", model), ("max_tokens", some (.num 4000)),
                       ("messages", some (.arr messages)), ("stream", stream)] }

/-- `callClaude(messages, model, apiKey, stream)`. -/
def callClaude (upstream : Upstream) (messages : List Json) (model apiKey stream : JsVal) :
    Except String Json × List UpstreamCall :=
  let call := claudeRequest messages model apiKey stream
  let res : Except String Json :=
    match upstream call with
    | .error m => .error m
    | .ok (ok, data) =>
      if ok then extractClaude data
      else
        match upstreamErrorMsg "Claude" data with
        | .error m => .error m
        | .ok m => .error m
  (res, [call])

/-- The fetch request `callMistral` issues. -/
def mistralRequest (messages : List Json) (model apiKey stream : JsVal) : UpstreamCall :=
  { url := "https://api.mistral.ai/v1/chat/completions"
    method := "POST"
    headers := [("Authorization", "Bearer " ++ jsValTemplate apiKey),
                ("Content-Type", "application/json")]
    body := mkObjDrop [("model", model), ("messages", some (.arr messages)),
                       ("stream", stream)] }

/-- `callMistral(messages, model, apiKey, stream)`. -/
def callMistral (upstream : Upstream) (messages : List Json) (model apiKey stream : JsVal) :
    Except String Json × List UpstreamCall :=
  let call := mistralRequest messages model apiKey stream
  let res : Except String Json :=
    match upstream call with
    | .error m => .error m
    | .ok (ok, data) =>
      if ok then extractMistral data
      else
        match upstreamErrorMsg "Mistral" data with
        | .error m => .error m
        | .ok m => .error m
  (res, [call])

/-! ## The route handler (`Deno.serve` body) -/

/-- The destructured JSON request body:
`const { messages, model, provider, stream = false, userApiKey } = await req.json()`.
A field absent from the body destructures to `undefined` (`none`). -/
structure RouteReq where
  messages : JsVal
  model : JsVal
  provider : JsVal
  stream : JsVal
  userApiKey : JsVal
deriving Repr

/-- Observable side effects of one invocation: environment variables
read and upstream HTTP calls made, in order. -/
structure RouteTrace where
  envLookups : List String
  upstreamCalls : List UpstreamCall
deriving Repr

/-- The HTTP response produced by the handler: 200 with the normalized
result, or an error status with the error envelope. -/
inductive Outcome where
  | success (body : Json)
  | failure (status : Nat) (body : Json)
deriving Repr

/-- `stream = false` destructuring default: applies only to `undefined`. -/
def streamOrDefault : JsVal → JsVal
  | none => some (.bool false)
  | v => v

/-- Credential resolution: `let apiKey = userApiKey; if (!apiKey) switch (provider) ...`.
Returns the resolved key value and the environment keys read; the
`default` branch throws before any environment read. -/
def resolveApiKey (env : String → Option String) (req : RouteReq) :
    Except String (JsVal × List String) :=
  if jsTruthy req.userApiKey then .ok (req.userApiKey, [])
  else
    match req.provider with
    | some (.str "openai") => .ok ((env "OPENAI_API_KEY").map Json.str, ["OPENAI_API_KEY"])
    | some (.str "claude") => .ok ((env "ANTHROPIC_API_KEY").map Json.str, ["ANTHROPIC_API_KEY"])
    | some (.str "mistral") => .ok ((env "MISTRAL_API_KEY").map Json.str, ["MISTRAL_API_KEY"])
    | _ => .error ("Unsupported provider: " ++ jsValTemplate req.provider)

/-- The try-block of the handler: validation, credential resolution,
message formatting, dispatch.  Produces the success body or the thrown
error message, together with the side-effect trace. -/
def routeCore (env : String → Option String) (upstream : Upstream) (req : RouteReq) :
    Except String Json × RouteTrace :=
  if !jsTruthy req.messages || !jsIsArray req.messages || jsArrLen req.messages == 0 then
    (.error "Messages array is required", ⟨[], []⟩)
  else if !jsTruthy req.model || !jsTruthy req.provider then
    (.error "Model and provider are required", ⟨[], []⟩)
  else
    match resolveApiKey env req with
    | .error m => (.error m, ⟨[], []⟩)
    | .ok (apiKey, lookups) =>
      if !jsTruthy apiKey then
        (.error ("API key not found for provider: " ++ jsValTemplate req.provider),
         ⟨lookups, []⟩)
      else
        match formatMessagesForProvider (jsArrElems req.messages) req.provider with
        | .error m => (.error m, ⟨lookups, []⟩)
        | .ok formatted =>
          let streamVal := streamOrDefault req.stream
          match req.provider with
          | some (.str "openai") =>
            let (res, calls) := callOpenAI upstream formatted req.model apiKey streamVal
            (res, ⟨lookups, calls⟩)
          | some (.str "claude") =>
            let (res, calls) := callClaude upstream formatted req.model apiKey streamVal
            (res, ⟨lookups, calls⟩)
          | some (.str "mistral") =>
            let (res, calls) := callMistral upstream formatted req.model apiKey streamVal
            (res, ⟨lookups, calls⟩)
          | _ =>
            (.error ("Unsupported provider: " ++ jsValTemplate req.provider), ⟨lookups, []⟩)

/-- The catch block reads `req.provider`, but `req` there is the fetch
`Request` object, which has no `provider` property (the request's
provider was destructured from the parsed body into a separate `const`
that is out of scope in the catch).  The access therefore always yields
`undefined`. -/
def requestProviderProp : JsVal := none

/-- `req.provider || 'unknown'` in the catch block. -/
def catchProviderField : JsVal :=
  if jsTruthy requestProviderProp then requestProviderProp else some (.str "unknown")

/-- The uniform error envelope built in the catch block. -/
def errorEnvelope (msg : String) : Json :=
  mkObjDrop [("error", some (mkObjDrop
    [("code", some (.str "CHAT_COMPLETION_FAILED")),
     ("message", some (.str msg)),
     ("provider", catchProviderField)]))]

/-- The complete handler: try-block, with every thrown error mapped to
an HTTP 500 response carrying the uniform envelope. -/
def route (env : String → Option String) (upstream : Upstream) (req : RouteReq) :
    Outcome × RouteTrace :=
  match routeCore env upstream req with
  | (.ok body, tr) => (.success body, tr)
  | (.error msg, tr) => (.failure 500 (errorEnvelope msg), tr)

/-! ## Theorem-side vocabulary

Abbreviations used to state the claims: the registry of supported
providers, the per-provider environment key, endpoint and
authentication header, the role projection of a wire message, and the
inverse of the documented claude role renaming. -/

/-- The provider registry {openai, claude, mistral}. -/
inductive Provider where
  | openai
  | claude
  | mistral
deriving Repr, DecidableEq

/-- The provider id string of a registered provider. -/
def providerName : Provider → String
  | .openai => "openai"
  | .claude => "claude"
  | .mistral => "mistral"

/-- The environment variable holding the process-wide secret of a provider. -/
def envKeyName : Provider → String
  | .openai => "OPENAI_API_KEY"
  | .claude => "ANTHROPIC_API_KEY"
  | .mistral => "MISTRAL_API_KEY"

/-- The upstream completion endpoint of a provider. -/
def endpointOf : Provider → String
  | .openai => "https://api.openai.com/v1/chat/completions"
  | .claude => "https://api.anthropic.com/v1/messages"
  | .mistral => "https://api.mistral.ai/v1/chat/completions"

/-- The authentication header a provider's call attaches for a resolved
key: `Authorization: Bearer <key>` for openai/mistral, `x-api-key: <key>`
for claude. -/
def authHeader : Provider → JsVal → String × String
  | .openai, k => ("Authorization", "Bearer " ++ jsValTemplate k)
  | .claude, k => ("x-api-key", jsValTemplate k)
  | .mistral, k => ("Authorization", "Bearer " ++ jsValTemplate k)

/-- The role field of a wire-format message. -/
def roleOf (m : Json) : JsVal := jsProp m "role"

/-- The inverse of the documented role renaming for claude, from the
spec's round-trip property: `human` back to `user`, identity otherwise. -/
def reverseClaudeRole : JsVal → JsVal
  | some (.str "human") => some (.str "user")
  | v => v

/-! ## Helper lemmas -/

theorem isUserRole_eq_true {v : JsVal} : isUserRole v = true ↔ v = some (.str "user") := by
  cases v with
  | none => simp [isUserRole]
  | some j =>
    cases j <;> simp [isUserRole]

theorem projMsg_ok {m : Json} (h : m ≠ .null) : projMsg m = .ok (projShape m) := by
  cases m <;> first | rfl | exact absurd rfl h

theorem claudeMsg_ok {m : Json} (h : m ≠ .null) : claudeMsg m = .ok (claudeShape m) := by
  cases m <;> first | rfl | exact absurd rfl h

theorem mapMsgs_ok {f : Json → Except String Json} {g : Json → Json}
    (hfg : ∀ m, m ≠ Json.null → f m = .ok (g m)) :
    ∀ {msgs : List Json}, (∀ m ∈ msgs, m ≠ Json.null) →
      mapMsgs f msgs = .ok (msgs.map g)
  | [], _ => rfl
  | m :: rest, h => by
    have hm : f m = .ok (g m) := hfg m (h m (List.mem_cons_self m rest))
    have hrest : mapMsgs f rest = .ok (rest.map g) :=
      mapMsgs_ok hfg (fun x hx => h x (List.mem_cons_of_mem m hx))
    simp only [mapMsgs, hm, hrest, List.map]
    rfl

theorem jsProp_pair {k1 k2 : String} {v1 v2 : JsVal} (hne : k1 ≠ k2) :
    jsProp (mkObjDrop [(k1, v1), (k2, v2)]) k1 = v1 ∧
    jsProp (mkObjDrop [(k1, v1), (k2, v2)]) k2 = v2 := by
  cases v1 <;> cases v2 <;>
    simp [mkObjDrop, jsProp, lookupField, hne, Ne.symm hne]

/-! ## Claims -/

/-- C1 (counterexample): the claim says a `system` message passes
through the claude transformer with role unchanged; in fact the
transformer rewrites every non-`user` role to `assistant`, so a
`system` message comes out with role `assistant` (content unchanged,
still inline). -/
theorem claude_system_role_rewritten :
    formatMessagesForProvider
        [Json.obj [("role", Json.str "system"), ("content", Json.str "instructions")]]
        (some (Json.str "claude"))
      = .ok [Json.obj [("role", Json.str "assistant"), ("content", Json.str "instructions")]]
    ∧ ("assistant" : String) ≠ "system" :=
  ⟨rfl, by decide⟩

/-- C1 (amended): for the claude provider the transformer maps, on
every list of non-null messages: role `user` to `human`, and every
other role (including `assistant`, which is unchanged, and `system`,
which is rewritten) to `assistant`; content is carried over unchanged
and messages stay inline, in order, with no top-level hoisting. -/
theorem claude_transform_role_mapping (msgs : List Json)
    (h : ∀ m ∈ msgs, m ≠ Json.null) :
    ∃ out, formatMessagesForProvider msgs (some (.str "claude")) = .ok out ∧
      out.length = msgs.length ∧
      ∀ i m o, msgs.get? i = some m → out.get? i = some o →
        (jsProp m "role" = some (.str "user") → jsProp o "role" = some (.str "human")) ∧
        (jsProp m "role" ≠ some (.str "user") → jsProp o "role" = some (.str "assistant")) ∧
        jsProp o "content" = jsProp m "content" := by
  have hfmt : formatMessagesForProvider msgs (some (.str "claude"))
      = mapMsgs claudeMsg msgs := rfl
  refine ⟨msgs.map claudeShape,
    hfmt ▸ mapMsgs_ok (fun m hm => claudeMsg_ok hm) h, by simp, ?_⟩
  intro i m o hm ho
  rw [List.get?_map, hm, Option.map_some'] at ho
  obtain rfl : claudeShape m = o := Option.some.inj ho
  have hpair := @jsProp_pair "role" "content"
    (some (if isUserRole (jsProp m "role") then .str "human" else .str "assistant"))
    (jsProp m "content") (by decide)
  refine ⟨?_, ?_, hpair.2⟩
  · intro hu
    have : isUserRole (jsProp m "role") = true := isUserRole_eq_true.mpr hu
    rw [claudeShape] at *
    rw [hpair.1, this]
    simp
  · intro hu
    have : isUserRole (jsProp m "role") = false := by
      rcases Bool.eq_false_or_eq_true (isUserRole (jsProp m "role")) with hb | hb
      · exact absurd (isUserRole_eq_true.mp hb) hu
      · exact hb
    rw [claudeShape] at *
    rw [hpair.1, this]
    simp

/-- C1 witness: the amended mapping evaluated on a concrete two-message
list (one user message, one system message). -/
theorem claude_transform_role_mapping_witness :
    (∀ m ∈ [Json.obj [("role", Json.str "user"), ("content", Json.str "q")],
            Json.obj [("role", Json.str "system"), ("content", Json.str "s")]],
        m ≠ Json.null) ∧
    (∃ out, formatMessagesForProvider
        [Json.obj [("role", Json.str "user"), ("content", Json.str "q")],
         Json.obj [("role", Json.str "system"), ("content", Json.str "s")]]
        (some (.str "claude")) = .ok out ∧
      out.length = [Json.obj [("role", Json.str "user"), ("content", Json.str "q")],
                    Json.obj [("role", Json.str "system"), ("content", Json.str "s")]].length ∧
      ∀ i m o, [Json.obj [("role", Json.str "user"), ("content", Json.str "q")],
                Json.obj [("role", Json.str "system"), ("content", Json.str "s")]].get? i
            = some m → out.get? i = some o →
        (jsProp m "role" = some (.str "user") → jsProp o "role" = some (.str "human")) ∧
        (jsProp m "role" ≠ some (.str "user") → jsProp o "role" = some (.str "assistant")) ∧
        jsProp o "content" = jsProp m "content") :=
  ⟨by simp, claude_transform_role_mapping _ (by simp)⟩

/-- C3 (counterexample): the round-trip property fails for claude on a
list containing a `system` message: the transformer emits role
`assistant`, the documented reverse renaming (`human` back to `user`,
identity otherwise) leaves `assistant` unchanged, and `assistant` is
not the original role `system`. -/
theorem roundtrip_fails_on_system :
    formatMessagesForProvider [Json.obj [("role", Json.str "system"), ("content", Json.str "c")]]
        (some (.str "claude"))
      = .ok [Json.obj [("role", Json.str "assistant"), ("content", Json.str "c")]]
    ∧ reverseClaudeRole (roleOf (Json.obj [("role", Json.str "assistant"), ("content", Json.str "c")]))
        = some (.str "assistant")
    ∧ roleOf (Json.obj [("role", Json.str "system"), ("content", Json.str "c")]) = some (.str "system")
    ∧ ("assistant" : String) ≠ "system" :=
  ⟨rfl, rfl, rfl, by decide⟩

/-- The role field of the openai/mistral wire shape of a message is the
message's own role field. -/
theorem roleOf_projShape (m : Json) : roleOf (projShape m) = roleOf m :=
  (jsProp_pair (by decide)).1

/-- The role field of the claude wire shape of a message. -/
theorem roleOf_claudeShape (m : Json) :
    roleOf (claudeShape m)
      = some (if isUserRole (roleOf m) then .str "human" else .str "assistant") :=
  (jsProp_pair (by decide)).1

/-- C3 (amended): applying `toUpstream` and then the inverse of the
documented role renaming recovers every original role for openai and
mistral on every (non-null-element) message list, and for claude on
every list whose roles are all `user` or `assistant`; a `system` (or
other) role is not recovered for claude. -/
theorem roundtrip_roles_amended (msgs : List Json) (h : ∀ m ∈ msgs, m ≠ Json.null) :
    (∀ p : String, p = "openai" ∨ p = "mistral" →
      ∃ out, formatMessagesForProvider msgs (some (.str p)) = .ok out ∧
        out.map roleOf = msgs.map roleOf) ∧
    ((∀ m ∈ msgs, roleOf m = some (.str "user") ∨ roleOf m = some (.str "assistant")) →
      ∃ out, formatMessagesForProvider msgs (some (.str "claude")) = .ok out ∧
        out.map (fun o => reverseClaudeRole (roleOf o)) = msgs.map roleOf) := by
  constructor
  · intro p hp
    refine ⟨msgs.map projShape, ?_, ?_⟩
    · rcases hp with rfl | rfl
      · exact mapMsgs_ok (fun m hm => projMsg_ok hm) h
      · exact mapMsgs_ok (fun m hm => projMsg_ok hm) h
    · rw [List.map_map]
      exact List.map_congr_left (fun m _ => roleOf_projShape m)
  · intro hroles
    refine ⟨msgs.map claudeShape,
      mapMsgs_ok (fun m hm => claudeMsg_ok hm) h, ?_⟩
    rw [List.map_map]
    refine List.map_congr_left (fun m hm => ?_)
    rcases hroles m hm with hr | hr
    · have hu : isUserRole (roleOf m) = true := isUserRole_eq_true.mpr hr
      simp only [Function.comp_apply, roleOf_claudeShape, hu, if_true, hr]
      rfl
    · have hu : isUserRole (roleOf m) = false := by
        rcases Bool.eq_false_or_eq_true (isUserRole (roleOf m)) with hb | hb
        · rw [isUserRole_eq_true] at hb
          rw [hb] at hr
          exact absurd (Option.some.inj hr) (by simp)
        · exact hb
      simp only [Function.comp_apply, roleOf_claudeShape, hu, if_false, hr]
      rfl

/-- C3 witness: the amended round-trip evaluated on a concrete
user/assistant conversation. -/
theorem roundtrip_roles_amended_witness :
    (∀ m ∈ [Json.obj [("role", Json.str "user"), ("content", Json.str "q")],
            Json.obj [("role", Json.str "assistant"), ("content", Json.str "a")]],
        m ≠ Json.null) ∧
    ((∀ p : String, p = "openai" ∨ p = "mistral" →
      ∃ out, formatMessagesForProvider
          [Json.obj [("role", Json.str "user"), ("content", Json.str "q")],
           Json.obj [("role", Json.str "assistant"), ("content", Json.str "a")]]
          (some (.str p)) = .ok out ∧
        out.map roleOf
          = [Json.obj [("role", Json.str "user"), ("content", Json.str "q")],
             Json.obj [("role", Json.str "assistant"), ("content", Json.str "a")]].map roleOf) ∧
    ((∀ m ∈ [Json.obj [("role", Json.str "user"), ("content", Json.str "q")],
             Json.obj [("role", Json.str "assistant"), ("content", Json.str "a")]],
        roleOf m = some (.str "user") ∨ roleOf m = some (.str "assistant")) →
      ∃ out, formatMessagesForProvider
          [Json.obj [("role", Json.str "user"), ("content", Json.str "q")],
           Json.obj [("role", Json.str "assistant"), ("content", Json.str "a")]]
          (some (.str "claude")) = .ok out ∧
        out.map (fun o => reverseClaudeRole (roleOf o))
          = [Json.obj [("role", Json.str "user"), ("content", Json.str "q")],
             Json.obj [("role", Json.str "assistant"), ("content", Json.str "a")]].map roleOf)) :=
  ⟨by simp, roundtrip_roles_amended _ (by simp)⟩

theorem jsProp_mkObjDrop_nil (k : String) : jsProp (mkObjDrop []) k = none := rfl

theorem jsProp_mkObjDrop_head (k : String) (v : Json) (rest : List (String × JsVal)) :
    jsProp (mkObjDrop ((k, some v) :: rest)) k = some v := by
  simp [mkObjDrop, jsProp, lookupField]

theorem jsProp_mkObjDrop_skip (k k0 : String) (v0 : JsVal) (rest : List (String × JsVal))
    (hne : k ≠ k0) :
    jsProp (mkObjDrop ((k0, v0) :: rest)) k = jsProp (mkObjDrop rest) k := by
  cases v0 with
  | none => simp [mkObjDrop, jsProp, lookupField]
  | some x => simp [mkObjDrop, jsProp, lookupField, Ne.symm hne]

theorem jsProp_mkObjDrop_head_opt (k : String) (v : JsVal) (rest : List (String × JsVal))
    (h : jsProp (mkObjDrop rest) k = none) :
    jsProp (mkObjDrop ((k, v) :: rest)) k = v := by
  cases v with
  | none => simpa [mkObjDrop, jsProp, lookupField] using h
  | some x => exact jsProp_mkObjDrop_head k x rest

/-- C2 (counterexample): on the parseable success body `{}` every one
of the three normalizers throws a TypeError (the `[0]` index is applied
to `undefined` because the top-level `choices`/`content` field is
absent), instead of defaulting the content to an empty string. -/
theorem normalizer_throws_on_missing_array :
    extractOpenAI (Json.obj [])
        = .error "TypeError: Cannot read properties of undefined (reading index)"
    ∧ extractClaude (Json.obj [])
        = .error "TypeError: Cannot read properties of undefined (reading index)"
    ∧ extractMistral (Json.obj [])
        = .error "TypeError: Cannot read properties of undefined (reading index)" :=
  ⟨rfl, rfl, rfl⟩

/-- C2 (amended): the normalizer never fails when the top-level
`choices` (openai/mistral) or `content` (claude) field of the parseable
response body is an array: any missing first element or missing nested
`message`/`content`/`text` field then defaults the result content to
the empty string.  (When that top-level field is absent the normalizer
throws — see the counterexample.) -/
theorem normalizer_total_on_array (fields : List (String × Json)) (xs : List Json) :
    (lookupField fields "choices" = some (.arr xs) →
      ∃ r, extractOpenAI (.obj fields) = .ok r ∧ extractMistral (.obj fields) = .ok r ∧
        (optProp (optProp (xs.get? 0) "message") "content" = none →
          jsProp r "content" = some (.str ""))) ∧
    (lookupField fields "content" = some (.arr xs) →
      ∃ r, extractClaude (.obj fields) = .ok r ∧
        (optProp (xs.get? 0) "text" = none → jsProp r "content" = some (.str ""))) := by
  constructor
  · intro h
    have e1 : strictProp (some (Json.obj fields)) "choices" = .ok (some (Json.arr xs)) := by
      show Except.ok (lookupField fields "choices") = _
      rw [h]
    refine ⟨mkObjDrop
        [("content", some (if jsTruthy (optProp (optProp (xs.get? 0) "message") "content")
            then (optProp (optProp (xs.get? 0) "message") "content").getD .null
            else .str "")),
         ("usage", lookupField fields "usage"),
         ("model", lookupField fields "model")], ?_, ?_, ?_⟩
    · simp only [extractOpenAI]
      rw [e1]
      rfl
    · simp only [extractMistral]
      rw [e1]
      rfl
    · intro hc
      rw [hc]
      exact jsProp_mkObjDrop_head _ _ _
  · intro h
    have e1 : strictProp (some (Json.obj fields)) "content" = .ok (some (Json.arr xs)) := by
      show Except.ok (lookupField fields "content") = _
      rw [h]
    refine ⟨mkObjDrop
        [("content", some (if jsTruthy (optProp (xs.get? 0) "text")
            then (optProp (xs.get? 0) "text").getD .null
            else .str "")),
         ("usage", lookupField fields "usage"),
         ("model", lookupField fields "model")], ?_, ?_⟩
    · simp only [extractClaude]
      rw [e1]
      rfl
    · intro hc
      rw [hc]
      exact jsProp_mkObjDrop_head _ _ _

/-- C2 witness: the amended totality applied to the body
`{"choices": []}` (respectively `{"content": []}`), whose normalized
content is the empty string. -/
theorem normalizer_total_on_array_witness :
    (lookupField [("choices", Json.arr [])] "choices" = some (.arr []) →
      ∃ r, extractOpenAI (.obj [("choices", Json.arr [])]) = .ok r ∧
        extractMistral (.obj [("choices", Json.arr [])]) = .ok r ∧
        (optProp (optProp (([] : List Json).get? 0) "message") "content" = none →
          jsProp r "content" = some (.str ""))) ∧
    (lookupField [("choices", Json.arr [])] "content" = some (.arr []) →
      ∃ r, extractClaude (.obj [("choices", Json.arr [])]) = .ok r ∧
        (optProp (([] : List Json).get? 0) "text" = none →
          jsProp r "content" = some (.str ""))) :=
  normalizer_total_on_array [("choices", Json.arr [])] []

/-- C5: a request whose `messages` is missing, not an array, or empty
fails with the InvalidRequest message `Messages array is required`, and
a request passing that check but missing `model` or `provider` fails
with `Model and provider are required`; in both cases the trace is
empty — no environment read and zero upstream calls. -/
theorem invalid_request_no_upstream (env : String → Option String) (upstream : Upstream)
    (req : RouteReq) :
    (¬ (jsTruthy req.messages = true ∧ jsIsArray req.messages = true ∧
        jsArrLen req.messages ≠ 0) →
      route env upstream req
        = (.failure 500 (errorEnvelope "Messages array is required"), ⟨[], []⟩)) ∧
    ((jsTruthy req.messages = true ∧ jsIsArray req.messages = true ∧
        jsArrLen req.messages ≠ 0) →
      ¬ (jsTruthy req.model = true ∧ jsTruthy req.provider = true) →
      route env upstream req
        = (.failure 500 (errorEnvelope "Model and provider are required"), ⟨[], []⟩)) := by
  constructor
  · intro H
    have hc : (!jsTruthy req.messages || !jsIsArray req.messages
        || jsArrLen req.messages == 0) = true := by
      rcases Bool.eq_false_or_eq_true (jsTruthy req.messages) with hA | hA
      · rcases Bool.eq_false_or_eq_true (jsIsArray req.messages) with hB | hB
        · have hL : jsArrLen req.messages = 0 := by
            by_contra hL
            exact H ⟨hA, hB, hL⟩
          simp [hA, hB, hL]
        · simp [hA, hB]
      · simp [hA]
    simp [route, routeCore, hc]
  · intro hv H
    have hc1 : (!jsTruthy req.messages || !jsIsArray req.messages
        || jsArrLen req.messages == 0) = false := by
      simp [hv.1, hv.2.1, hv.2.2]
    have hc2 : (!jsTruthy req.model || !jsTruthy req.provider) = true := by
      rcases Bool.eq_false_or_eq_true (jsTruthy req.model) with hA | hA
      · rcases Bool.eq_false_or_eq_true (jsTruthy req.provider) with hB | hB
        · exact absurd ⟨hA, hB⟩ H
        · simp [hB]
      · simp [hA]
    simp [route, routeCore, hc1, hc2]

/-- C5 witness: a request with an empty messages array for provider
openai is rejected with no environment read and no upstream call. -/
theorem invalid_request_no_upstream_witness :
    route (fun _ => some "sk-env") (fun _ => .ok (true, Json.null))
        { messages := some (.arr []), model := some (.str "gpt-4"),
          provider := some (.str "openai"), stream := none, userApiKey := none }
      = (.failure 500 (errorEnvelope "Messages array is required"), ⟨[], []⟩) :=
  (invalid_request_no_upstream (fun _ => some "sk-env") (fun _ => .ok (true, Json.null))
      { messages := some (.arr []), model := some (.str "gpt-4"),
        provider := some (.str "openai"), stream := none, userApiKey := none }).1
    (by simp [jsTruthy, jsIsArray, jsArrLen])

/-- The formatter's switch falls through to the identity default on an
unregistered provider string. -/
theorem format_unknown_provider (messages : List Json) (p : String)
    (h1 : p ≠ "openai") (h2 : p ≠ "claude") (h3 : p ≠ "mistral") :
    formatMessagesForProvider messages (some (.str p)) = .ok messages := by
  rw [formatMessagesForProvider.eq_def]
  split
  · rename_i heq
    injection heq with heq
    injection heq with heq
    exact absurd heq h1
  · rename_i heq
    injection heq with heq
    injection heq with heq
    exact absurd heq h2
  · rename_i heq
    injection heq with heq
    injection heq with heq
    exact absurd heq h3
  · rfl

/-- With no caller key, the credential switch throws `Unsupported provider`
on an unregistered provider string, before any environment read. -/
theorem resolveApiKey_unknown (env : String → Option String) (req : RouteReq) (p : String)
    (hprov : req.provider = some (.str p))
    (h1 : p ≠ "openai") (h2 : p ≠ "claude") (h3 : p ≠ "mistral")
    (huser : jsTruthy req.userApiKey = false) :
    resolveApiKey env req = .error ("Unsupported provider: " ++ p) := by
  rw [resolveApiKey.eq_def, huser, hprov]
  simp only [Bool.false_eq_true, if_false]
  split
  · rename_i heq
    injection heq with heq
    injection heq with heq
    exact absurd heq h1
  · rename_i heq
    injection heq with heq
    injection heq with heq
    exact absurd heq h2
  · rename_i heq
    injection heq with heq
    injection heq with heq
    exact absurd heq h3
  · simp [jsValTemplate, jsTemplate]

/-- C6: a request naming a provider outside {openai, claude, mistral}
(passing the earlier field validation) fails with the
`Unsupported provider` error, with an empty trace: no environment
credential lookup and zero upstream calls — whether or not a caller
key was supplied. -/
theorem unsupported_provider_rejected (env : String → Option String) (upstream : Upstream)
    (req : RouteReq) (p : String)
    (hmsg : jsTruthy req.messages = true ∧ jsIsArray req.messages = true ∧
      jsArrLen req.messages ≠ 0)
    (hmodel : jsTruthy req.model = true)
    (hprov : req.provider = some (.str p))
    (hp0 : p ≠ "") (h1 : p ≠ "openai") (h2 : p ≠ "claude") (h3 : p ≠ "mistral") :
    route env upstream req
      = (.failure 500 (errorEnvelope ("Unsupported provider: " ++ p)), ⟨[], []⟩) := by
  have hc1 : (!jsTruthy req.messages || !jsIsArray req.messages
      || jsArrLen req.messages == 0) = false := by
    simp [hmsg.1, hmsg.2.1, hmsg.2.2]
  have hprovT : jsTruthy req.provider = true := by
    rw [hprov]
    simp [jsTruthy]
    exact hp0
  have hc2 : (!jsTruthy req.model || !jsTruthy req.provider) = false := by
    simp [hmodel, hprovT]
  have hcore : routeCore env upstream req
      = (.error ("Unsupported provider: " ++ p), ⟨[], []⟩) := by
    rcases Bool.eq_false_or_eq_true (jsTruthy req.userApiKey) with hu | hu
    · have hres : resolveApiKey env req = .ok (req.userApiKey, []) := by
        rw [resolveApiKey.eq_def, hu]
        rfl
      have hfmt := format_unknown_provider (jsArrElems req.messages) p h1 h2 h3
      rw [routeCore, hc1, hc2]
      simp only [Bool.false_eq_true, if_false, hres, hu, Bool.not_true]
      rw [hprov]
      simp only [hfmt]
      split
      · rename_i heq
        injection heq with heq
        injection heq with heq
        exact absurd heq h1
      · rename_i heq
        injection heq with heq
        injection heq with heq
        exact absurd heq h2
      · rename_i heq
        injection heq with heq
        injection heq with heq
        exact absurd heq h3
      · simp [jsValTemplate, jsTemplate]
    · have hres := resolveApiKey_unknown env req p hprov h1 h2 h3 hu
      rw [routeCore, hc1, hc2]
      simp only [Bool.false_eq_true, if_false, hres]
  simp [route, hcore]

/-- C6 witness: provider `cohere` with an otherwise valid request (and
a caller key supplied) is rejected with no environment read and no
upstream call. -/
theorem unsupported_provider_rejected_witness :
    route (fun _ => some "sk-env") (fun _ => .ok (true, Json.null))
        { messages := some (.arr [Json.obj [("role", Json.str "user"), ("content", Json.str "q")]]),
          model := some (.str "command-r"), provider := some (.str "cohere"),
          stream := none, userApiKey := some (.str "sk-user") }
      = (.failure 500 (errorEnvelope ("Unsupported provider: " ++ "cohere")), ⟨[], []⟩) :=
  unsupported_provider_rejected (fun _ => some "sk-env") (fun _ => .ok (true, Json.null))
    { messages := some (.arr [Json.obj [("role", Json.str "user"), ("content", Json.str "q")]]),
      model := some (.str "command-r"), provider := some (.str "cohere"),
      stream := none, userApiKey := some (.str "sk-user") }
    "cohere" (by simp [jsTruthy, jsIsArray, jsArrLen]) (by simp [jsTruthy]) rfl
    (by decide) (by decide) (by decide) (by decide)

/-- The call function the dispatch switch selects for a registered provider. -/
def callOf : Provider → Upstream → List Json → JsVal → JsVal → JsVal →
    Except String Json × List UpstreamCall
  | .openai => callOpenAI
  | .claude => callClaude
  | .mistral => callMistral

/-- The fetch request a registered provider's call function issues. -/
def requestOf : Provider → List Json → JsVal → JsVal → JsVal → UpstreamCall
  | .openai => openaiRequest
  | .claude => claudeRequest
  | .mistral => mistralRequest

theorem callOf_calls (p : Provider) (upstream : Upstream) (msgs : List Json)
    (model key stream : JsVal) :
    (callOf p upstream msgs model key stream).2 = [requestOf p msgs model key stream] := by
  cases p <;> rfl

theorem authHeader_mem_requestOf (p : Provider) (msgs : List Json) (model key stream : JsVal) :
    authHeader p key ∈ (requestOf p msgs model key stream).headers := by
  cases p <;> simp [requestOf, openaiRequest, claudeRequest, mistralRequest, authHeader]

theorem route_snd (env : String → Option String) (upstream : Upstream) (req : RouteReq) :
    (route env upstream req).2 = (routeCore env upstream req).2 := by
  rw [route]
  rcases routeCore env upstream req with ⟨res, tr⟩
  cases res <;> rfl

theorem route_of_core_error {env : String → Option String} {upstream : Upstream}
    {req : RouteReq} {m : String} {tr : RouteTrace}
    (h : routeCore env upstream req = (.error m, tr)) :
    route env upstream req = (.failure 500 (errorEnvelope m), tr) := by
  rw [route, h]

theorem resolveApiKey_user (env : String → Option String) (req : RouteReq)
    (hu : jsTruthy req.userApiKey = true) :
    resolveApiKey env req = .ok (req.userApiKey, []) := by
  rw [resolveApiKey.eq_def, hu]
  rfl

theorem resolveApiKey_env (env : String → Option String) (req : RouteReq) (p : Provider)
    (hu : jsTruthy req.userApiKey = false)
    (hprov : req.provider = some (.str (providerName p))) :
    resolveApiKey env req
      = .ok ((env (envKeyName p)).map Json.str, [envKeyName p]) := by
  rw [resolveApiKey.eq_def, hu, hprov]
  cases p <;> rfl

theorem routeCore_dispatch (env : String → Option String) (upstream : Upstream)
    (req : RouteReq) (p : Provider) (key : JsVal) (lks : List String) (fm : List Json)
    (hmsg : jsTruthy req.messages = true ∧ jsIsArray req.messages = true ∧
      jsArrLen req.messages ≠ 0)
    (hmodel : jsTruthy req.model = true)
    (hprov : req.provider = some (.str (providerName p)))
    (hres : resolveApiKey env req = .ok (key, lks))
    (hkey : jsTruthy key = true)
    (hfmt : formatMessagesForProvider (jsArrElems req.messages)
        (some (.str (providerName p))) = .ok fm) :
    routeCore env upstream req
      = ((callOf p upstream fm req.model key (streamOrDefault req.stream)).1,
         ⟨lks, (callOf p upstream fm req.model key (streamOrDefault req.stream)).2⟩) := by
  have hc1 : (!jsTruthy req.messages || !jsIsArray req.messages
      || jsArrLen req.messages == 0) = false := by
    simp [hmsg.1, hmsg.2.1, hmsg.2.2]
  cases p <;>
    (have hprovT : jsTruthy req.provider = true := by rw [hprov]; rfl
     have hc2 : (!jsTruthy req.model || !jsTruthy req.provider) = false := by
       simp [hmodel, hprovT]
     rw [routeCore, hc1, hc2]
     simp only [Bool.false_eq_true, if_false, hres, hkey, Bool.not_true]
     rw [hprov]
     simp only [hfmt]
     rfl)

theorem routeCore_format_error (env : String → Option String) (upstream : Upstream)
    (req : RouteReq) (p : Provider) (key : JsVal) (lks : List String) (m : String)
    (hmsg : jsTruthy req.messages = true ∧ jsIsArray req.messages = true ∧
      jsArrLen req.messages ≠ 0)
    (hmodel : jsTruthy req.model = true)
    (hprov : req.provider = some (.str (providerName p)))
    (hres : resolveApiKey env req = .ok (key, lks))
    (hkey : jsTruthy key = true)
    (hfmt : formatMessagesForProvider (jsArrElems req.messages)
        (some (.str (providerName p))) = .error m) :
    routeCore env upstream req = (.error m, ⟨lks, []⟩) := by
  have hc1 : (!jsTruthy req.messages || !jsIsArray req.messages
      || jsArrLen req.messages == 0) = false := by
    simp [hmsg.1, hmsg.2.1, hmsg.2.2]
  cases p <;>
    (have hprovT : jsTruthy req.provider = true := by rw [hprov]; rfl
     have hc2 : (!jsTruthy req.model || !jsTruthy req.provider) = false := by
       simp [hmodel, hprovT]
     rw [routeCore, hc1, hc2]
     simp only [Bool.false_eq_true, if_false, hres, hkey, Bool.not_true]
     rw [hprov]
     simp only [hfmt])

theorem routeCore_missing_key (env : String → Option String) (upstream : Upstream)
    (req : RouteReq) (p : Provider)
    (hmsg : jsTruthy req.messages = true ∧ jsIsArray req.messages = true ∧
      jsArrLen req.messages ≠ 0)
    (hmodel : jsTruthy req.model = true)
    (hprov : req.provider = some (.str (providerName p)))
    (hu : jsTruthy req.userApiKey = false)
    (henv : env (envKeyName p) = none ∨ env (envKeyName p) = some "") :
    routeCore env upstream req
      = (.error ("API key not found for provider: " ++ providerName p),
         ⟨[envKeyName p], []⟩) := by
  have hc1 : (!jsTruthy req.messages || !jsIsArray req.messages
      || jsArrLen req.messages == 0) = false := by
    simp [hmsg.1, hmsg.2.1, hmsg.2.2]
  have hres := resolveApiKey_env env req p hu hprov
  have hkeyF : jsTruthy ((env (envKeyName p)).map Json.str) = false := by
    rcases henv with h | h <;> rw [h] <;> rfl
  cases p <;>
    (have hprovT : jsTruthy req.provider = true := by rw [hprov]; rfl
     have hc2 : (!jsTruthy req.model || !jsTruthy req.provider) = false := by
       simp [hmodel, hprovT]
     rw [routeCore, hc1, hc2]
     simp only [Bool.false_eq_true, if_false, hres, hkeyF, Bool.not_false, if_true]
     rw [hprov]
     simp [jsValTemplate, jsTemplate])

/-- C7: credential resolution is first-match-wins for every request to
a registered provider that passes validation: a (truthy) caller key is
used for the upstream call's authentication header with no environment
read; otherwise the provider's environment secret is read and, when
present and non-empty, used; when neither exists the request fails with
the `API key not found` (MissingCredential) error and zero upstream
calls are made. -/
theorem credential_resolution_first_match (p : Provider) (env : String → Option String)
    (upstream : Upstream) (req : RouteReq)
    (hmsg : jsTruthy req.messages = true ∧ jsIsArray req.messages = true ∧
      jsArrLen req.messages ≠ 0)
    (hmodel : jsTruthy req.model = true)
    (hprov : req.provider = some (.str (providerName p))) :
    (jsTruthy req.userApiKey = true →
      (route env upstream req).2.envLookups = [] ∧
      ∀ c ∈ (route env upstream req).2.upstreamCalls,
        authHeader p req.userApiKey ∈ c.headers) ∧
    (jsTruthy req.userApiKey = false → ∀ k, env (envKeyName p) = some k → k ≠ "" →
      (route env upstream req).2.envLookups = [envKeyName p] ∧
      ∀ c ∈ (route env upstream req).2.upstreamCalls,
        authHeader p (some (.str k)) ∈ c.headers) ∧
    (jsTruthy req.userApiKey = false →
      (env (envKeyName p) = none ∨ env (envKeyName p) = some "") →
      route env upstream req
        = (.failure 500
            (errorEnvelope ("API key not found for provider: " ++ providerName p)),
           ⟨[envKeyName p], []⟩)) := by
  refine ⟨?_, ?_, ?_⟩
  · intro hu
    have hres := resolveApiKey_user env req hu
    rw [route_snd]
    rcases hfmt : formatMessagesForProvider (jsArrElems req.messages)
        (some (.str (providerName p))) with m | fm
    · rw [routeCore_format_error env upstream req p _ _ m hmsg hmodel hprov hres hu hfmt]
      exact ⟨rfl, by simp⟩
    · rw [routeCore_dispatch env upstream req p _ _ fm hmsg hmodel hprov hres hu hfmt]
      refine ⟨rfl, ?_⟩
      intro c hc
      rw [callOf_calls] at hc
      simp only [List.mem_singleton] at hc
      subst hc
      exact authHeader_mem_requestOf p fm req.model req.userApiKey (streamOrDefault req.stream)
  · intro hu k hk hkne
    have hres := resolveApiKey_env env req p hu hprov
    rw [hk, Option.map_some'] at hres
    have hkeyT : jsTruthy (some (.str k)) = true := by
      simp [jsTruthy]
      exact hkne
    rw [route_snd]
    rcases hfmt : formatMessagesForProvider (jsArrElems req.messages)
        (some (.str (providerName p))) with m | fm
    · rw [routeCore_format_error env upstream req p _ _ m hmsg hmodel hprov hres hkeyT hfmt]
      exact ⟨rfl, by simp⟩
    · rw [routeCore_dispatch env upstream req p _ _ fm hmsg hmodel hprov hres hkeyT hfmt]
      refine ⟨rfl, ?_⟩
      intro c hc
      rw [callOf_calls] at hc
      simp only [List.mem_singleton] at hc
      subst hc
      exact authHeader_mem_requestOf p fm req.model (some (.str k)) (streamOrDefault req.stream)
  · intro hu henv
    exact route_of_core_error (routeCore_missing_key env upstream req p hmsg hmodel hprov hu henv)

/-- C7 witness: first-match-wins instantiated for openai on a concrete
valid request, with an environment that has no credential. -/
theorem credential_resolution_first_match_witness :
    (jsTruthy (some (Json.str "sk-user") : JsVal) = true →
      (route (fun _ => none) (fun _ => .ok (true, Json.null))
          { messages := some (.arr [Json.obj [("role", Json.str "user"), ("content", Json.str "q")]]),
            model := some (.str "gpt-4"), provider := some (.str "openai"),
            stream := none, userApiKey := some (.str "sk-user") }).2.envLookups = [] ∧
      ∀ c ∈ (route (fun _ => none) (fun _ => .ok (true, Json.null))
          { messages := some (.arr [Json.obj [("role", Json.str "user"), ("content", Json.str "q")]]),
            model := some (.str "gpt-4"), provider := some (.str "openai"),
            stream := none, userApiKey := some (.str "sk-user") }).2.upstreamCalls,
        authHeader Provider.openai (some (Json.str "sk-user")) ∈ c.headers) ∧
    (jsTruthy (some (Json.str "sk-user") : JsVal) = false →
      ∀ k, (fun (_ : String) => (none : Option String)) (envKeyName Provider.openai) = some k →
        k ≠ "" →
      (route (fun _ => none) (fun _ => .ok (true, Json.null))
          { messages := some (.arr [Json.obj [("role", Json.str "user"), ("content", Json.str "q")]]),
            model := some (.str "gpt-4"), provider := some (.str "openai"),
            stream := none, userApiKey := some (.str "sk-user") }).2.envLookups
          = [envKeyName Provider.openai] ∧
      ∀ c ∈ (route (fun _ => none) (fun _ => .ok (true, Json.null))
          { messages := some (.arr [Json.obj [("role", Json.str "user"), ("content", Json.str "q")]]),
            model := some (.str "gpt-4"), provider := some (.str "openai"),
            stream := none, userApiKey := some (.str "sk-user") }).2.upstreamCalls,
        authHeader Provider.openai (some (.str k)) ∈ c.headers) ∧
    (jsTruthy (some (Json.str "sk-user") : JsVal) = false →
      ((fun (_ : String) => (none : Option String)) (envKeyName Provider.openai) = none ∨
        (fun (_ : String) => (none : Option String)) (envKeyName Provider.openai) = some "") →
      route (fun _ => none) (fun _ => .ok (true, Json.null))
          { messages := some (.arr [Json.obj [("role", Json.str "user"), ("content", Json.str "q")]]),
            model := some (.str "gpt-4"), provider := some (.str "openai"),
            stream := none, userApiKey := some (.str "sk-user") }
        = (.failure 500
            (errorEnvelope ("API key not found for provider: " ++ providerName Provider.openai)),
           ⟨[envKeyName Provider.openai], []⟩)) :=
  credential_resolution_first_match Provider.openai (fun _ => none)
    (fun _ => .ok (true, Json.null))
    { messages := some (.arr [Json.obj [("role", Json.str "user"), ("content", Json.str "q")]]),
      model := some (.str "gpt-4"), provider := some (.str "openai"),
      stream := none, userApiKey := some (.str "sk-user") }
    (by simp [jsTruthy, jsIsArray, jsArrLen]) (by simp [jsTruthy]) rfl

theorem requestOf_body_messages (p : Provider) (fm : List Json) (model key stream : JsVal) :
    jsProp (requestOf p fm model key stream).body "messages" = some (.arr fm) := by
  cases p <;> cases model <;> cases stream <;>
    simp [requestOf, openaiRequest, claudeRequest, mistralRequest, mkObjDrop, jsProp,
      lookupField]

theorem requestOf_body_model (p : Provider) (fm : List Json) (model key stream : JsVal) :
    jsProp (requestOf p fm model key stream).body "model" = model := by
  cases p <;> cases model <;> cases stream <;>
    simp [requestOf, openaiRequest, claudeRequest, mistralRequest, mkObjDrop, jsProp,
      lookupField]

theorem claudeRequest_body_max_tokens (fm : List Json) (model key stream : JsVal) :
    jsProp (claudeRequest fm model key stream).body "max_tokens" = some (.num 4000) := by
  cases model <;> cases stream <;>
    simp [claudeRequest, mkObjDrop, jsProp, lookupField]

/-- C9: on every dispatched request (validation passed, credential
resolved, formatting succeeded) the router makes exactly one upstream
call; it is an HTTP POST to the provider's endpoint, authenticated with
`Authorization: Bearer <key>` for openai/mistral and with `x-api-key`
plus the anthropic version header for claude, and its body carries the
transformed messages and the requested model — plus, for claude only, a
fixed `max_tokens` of 4000. -/
theorem upstream_dispatch_shape (p : Provider) (env : String → Option String)
    (upstream : Upstream) (req : RouteReq) (key : JsVal) (lks : List String) (fm : List Json)
    (hmsg : jsTruthy req.messages = true ∧ jsIsArray req.messages = true ∧
      jsArrLen req.messages ≠ 0)
    (hmodel : jsTruthy req.model = true)
    (hprov : req.provider = some (.str (providerName p)))
    (hres : resolveApiKey env req = .ok (key, lks))
    (hkey : jsTruthy key = true)
    (hfmt : formatMessagesForProvider (jsArrElems req.messages)
        (some (.str (providerName p))) = .ok fm) :
    ∃ c, (route env upstream req).2.upstreamCalls = [c] ∧
      c.method = "POST" ∧
      c.url = endpointOf p ∧
      authHeader p key ∈ c.headers ∧
      (p = .claude → ("anthropic-version", "2023-06-01") ∈ c.headers) ∧
      jsProp c.body "messages" = some (.arr fm) ∧
      jsProp c.body "model" = req.model ∧
      (p = .claude → jsProp c.body "max_tokens" = some (.num 4000)) := by
  rw [route_snd,
    routeCore_dispatch env upstream req p key lks fm hmsg hmodel hprov hres hkey hfmt]
  refine ⟨requestOf p fm req.model key (streamOrDefault req.stream),
    callOf_calls p upstream fm req.model key (streamOrDefault req.stream),
    ?_, ?_,
    authHeader_mem_requestOf p fm req.model key (streamOrDefault req.stream),
    ?_,
    requestOf_body_messages p fm req.model key (streamOrDefault req.stream),
    requestOf_body_model p fm req.model key (streamOrDefault req.stream),
    ?_⟩
  · cases p <;> rfl
  · cases p <;> rfl
  · intro hp
    subst hp
    simp [requestOf, claudeRequest]
  · intro hp
    subst hp
    exact claudeRequest_body_max_tokens fm req.model key (streamOrDefault req.stream)

/-- C9 witness: the dispatch shape instantiated for claude on a
concrete request with a caller-supplied key. -/
theorem upstream_dispatch_shape_witness :
    ∃ c, (route (fun _ => none) (fun _ => .ok (true, Json.null))
        { messages := some (.arr [Json.obj [("role", Json.str "user"), ("content", Json.str "q")]]),
          model := some (.str "claude-3-opus"), provider := some (.str "claude"),
          stream := none, userApiKey := some (.str "sk-user") }).2.upstreamCalls = [c] ∧
      c.method = "POST" ∧
      c.url = endpointOf Provider.claude ∧
      authHeader Provider.claude (some (.str "sk-user")) ∈ c.headers ∧
      (Provider.claude = .claude → ("anthropic-version", "2023-06-01") ∈ c.headers) ∧
      jsProp c.body "messages"
        = some (.arr [Json.obj [("role", Json.str "human"), ("content", Json.str "q")]]) ∧
      jsProp c.body "model" = some (.str "claude-3-opus") ∧
      (Provider.claude = .claude → jsProp c.body "max_tokens" = some (.num 4000)) :=
  upstream_dispatch_shape Provider.claude (fun _ => none) (fun _ => .ok (true, Json.null))
    { messages := some (.arr [Json.obj [("role", Json.str "user"), ("content", Json.str "q")]]),
      model := some (.str "claude-3-opus"), provider := some (.str "claude"),
      stream := none, userApiKey := some (.str "sk-user") }
    (some (.str "sk-user")) []
    [Json.obj [("role", Json.str "human"), ("content", Json.str "q")]]
    (by simp [jsTruthy, jsIsArray, jsArrLen]) (by simp [jsTruthy]) rfl
    (resolveApiKey_user _ _ (by simp [jsTruthy])) (by simp [jsTruthy]) rfl

/-- C8: with a mocked 2xx upstream returning the documented openai-shaped
body, the router returns the canonical result with content `hi`, the
usage metrics passed through (`total_tokens: 3`), and the upstream's
model echoed; mistral extracts the same shape, and claude extracts
`content[0].text`, `usage` and `model` analogously. -/
theorem normalized_result_extraction :
    (route (fun _ => none)
        (fun _ => .ok (true, Json.obj
          [("choices", Json.arr [Json.obj [("message", Json.obj [("content", Json.str "hi")])]]),
           ("usage", Json.obj [("total_tokens", Json.num 3)]),
           ("model", Json.str "gpt-4")]))
        { messages := some (.arr [Json.obj [("role", Json.str "user"), ("content", Json.str "q")]]),
          model := some (.str "gpt-4"), provider := some (.str "openai"),
          stream := none, userApiKey := some (.str "sk-user") }).1
      = .success (Json.obj
          [("content", Json.str "hi"),
           ("usage", Json.obj [("total_tokens", Json.num 3)]),
           ("model", Json.str "gpt-4")]) ∧
    (route (fun _ => none)
        (fun _ => .ok (true, Json.obj
          [("choices", Json.arr [Json.obj [("message", Json.obj [("content", Json.str "hi")])]]),
           ("usage", Json.obj [("total_tokens", Json.num 3)]),
           ("model", Json.str "mistral-large")]))
        { messages := some (.arr [Json.obj [("role", Json.str "user"), ("content", Json.str "q")]]),
          model := some (.str "mistral-large"), provider := some (.str "mistral"),
          stream := none, userApiKey := some (.str "sk-user") }).1
      = .success (Json.obj
          [("content", Json.str "hi"),
           ("usage", Json.obj [("total_tokens", Json.num 3)]),
           ("model", Json.str "mistral-large")]) ∧
    (route (fun _ => none)
        (fun _ => .ok (true, Json.obj
          [("content", Json.arr [Json.obj [("text", Json.str "hi")]]),
           ("usage", Json.obj [("total_tokens", Json.num 3)]),
           ("model", Json.str "claude-3-opus")]))
        { messages := some (.arr [Json.obj [("role", Json.str "user"), ("content", Json.str "q")]]),
          model := some (.str "claude-3-opus"), provider := some (.str "claude"),
          stream := none, userApiKey := some (.str "sk-user") }).1
      = .success (Json.obj
          [("content", Json.str "hi"),
           ("usage", Json.obj [("total_tokens", Json.num 3)]),
           ("model", Json.str "claude-3-opus")]) :=
  ⟨rfl, rfl, rfl⟩

/-- C10: every failing request — whatever the error kind — produces
HTTP 500 with an envelope whose `code` field is the single constant
`CHAT_COMPLETION_FAILED`; error kinds are therefore distinguishable
only through the `message` text, never through `code`. -/
theorem failure_envelope_code_uniform (env : String → Option String) (upstream : Upstream)
    (req : RouteReq) (st : Nat) (body : Json) (tr : RouteTrace)
    (h : route env upstream req = (.failure st body, tr)) :
    st = 500 ∧ optProp (jsProp body "error") "code" = some (.str "CHAT_COMPLETION_FAILED") := by
  rw [route] at h
  rcases hcore : routeCore env upstream req with ⟨res, tr'⟩
  rw [hcore] at h
  cases res with
  | ok b =>
    have hfst := congrArg Prod.fst h
    exact Outcome.noConfusion hfst
  | error m =>
    have hfst := congrArg Prod.fst h
    injection hfst with h1 h2
    subst h1
    subst h2
    exact ⟨rfl, rfl⟩

/-- C10 witness: the uniform code on the concrete missing-messages failure. -/
theorem failure_envelope_code_uniform_witness :
    (500 : Nat) = 500 ∧
    optProp (jsProp (errorEnvelope "Messages array is required") "error") "code"
      = some (.str "CHAT_COMPLETION_FAILED") :=
  failure_envelope_code_uniform (fun _ => none) (fun _ => .ok (true, Json.null))
    { messages := none, model := some (.str "gpt-4"),
      provider := some (.str "openai"), stream := none, userApiKey := none }
    500 (errorEnvelope "Messages array is required") ⟨[], []⟩ rfl

/-- C4: the error envelope's `provider` field never identifies the
provider named in the request: the catch block reads `req.provider`
off the fetch `Request` object (always `undefined`), so the field is
the constant `'unknown'` — here on a failing request that named
provider `openai`. -/
theorem error_envelope_provider_unknown :
    route (fun _ => none) (fun _ => .ok (true, Json.null))
        { messages := some (.arr [Json.obj [("role", Json.str "user"), ("content", Json.str "hi")]]),
          model := some (.str "gpt-4"), provider := some (.str "openai"),
          stream := none, userApiKey := none }
      = (.failure 500
          (errorEnvelope ("API key not found for provider: " ++ providerName Provider.openai)),
         ⟨[envKeyName Provider.openai], []⟩) ∧
    optProp (jsProp
        (errorEnvelope ("API key not found for provider: " ++ providerName Provider.openai))
        "error") "provider"
      = some (.str "unknown") ∧
    ("unknown" : String) ≠ "openai" :=
  ⟨route_of_core_error
      (routeCore_missing_key (fun _ => none) (fun _ => .ok (true, Json.null))
        { messages := some (.arr [Json.obj [("role", Json.str "user"), ("content", Json.str "hi")]]),
          model := some (.str "gpt-4"), provider := some (.str "openai"),
          stream := none, userApiKey := none }
        Provider.openai
        (by simp [jsTruthy, jsIsArray, jsArrLen]) (by simp [jsTruthy]) rfl
        (by simp [jsTruthy]) (Or.inl rfl)),
    rfl, by decide⟩
